import Mathlib

/-!
Verification of the page_summarizer repository's chunked summarization
pipeline. The definitions below are shallow embeddings of the Python
functions in `src/summarizer.py`, `src/webpage_processor.py` and
`src/lambda.py`: machine-level Python behaviours (negative slice indices,
`str.rfind` with clamped bounds, dict truthiness) are reproduced
explicitly, and the `while` loop of `chunk_text` is given fuel so that
its (non-)termination can be stated as a theorem.
-/

namespace PageSummarizer

/-! ## Python string primitives -/

/-- Python's normalization of a (possibly negative) slice or `rfind` index
against a string of length `n`: negative indices count from the end and
both directions clamp into `[0, n]`. -/
def normIdx (n : Nat) (i : Int) : Nat :=
  if i < 0 then ((n : Int) + i).toNat else min i.toNat n

/-- Python slice `l[a:b]` on a list of characters, with full index
normalization (negative indices, clamping). -/
def pySlice (l : List Char) (a b : Int) : List Char :=
  let x := normIdx l.length a
  let y := normIdx l.length b
  (l.drop x).take (y - x)

/-- Whether `pat` occurs in `l` starting at position `i`. -/
def matchesAt (l pat : List Char) (i : Nat) : Bool :=
  (l.drop i).take pat.length == pat

/-- Python `l.rfind(pat, a, b)`: the highest index `i` with
`normIdx a ≤ i`, `i + pat.length ≤ normIdx b` and a match at `i`;
`none` plays the role of Python's `-1`. -/
def pyRfind (l pat : List Char) (a b : Int) : Option Nat :=
  let lo := normIdx l.length a
  let hi := normIdx l.length b
  ((List.range' lo (hi + 1 - pat.length - lo)).reverse).find? (matchesAt l pat)

theorem normIdx_le (n : Nat) (i : Int) : normIdx n i ≤ n := by
  unfold normIdx
  split
  · omega
  · omega

theorem pyRfind_add_length_le {l pat : List Char} {a b : Int} {i : Nat}
    (h : pyRfind l pat a b = some i) : i + pat.length ≤ normIdx l.length b := by
  unfold pyRfind at h
  have hmem := List.mem_of_find?_eq_some h
  rw [List.mem_reverse, List.mem_range'_1] at hmem
  omega

/-! ## The Text Chunker (`summarizer.chunk_text`) -/

/-- The boundary markers tried, in the order of the source's `for` loop. -/
def markers : List (List Char) :=
  [['\n', '\n'], ['.', '\n'], ['.', ' '], ['!', ' '], ['?', ' ']]

/-- The `for marker in [...]` loop of `chunk_text`: for each marker in
order, take the rightmost occurrence in the window `[start_pos, end_pos)`;
if one exists and lies strictly past `mid`, the chunk ends just after it
and the loop breaks; otherwise the next marker is tried; if no marker
qualifies, the candidate `end_pos` stands. -/
def find_break_end (text : List Char) (start_pos end_pos mid : Int) :
    List (List Char) → Int
  | [] => end_pos
  | m :: ms =>
    match pyRfind text m start_pos end_pos with
    | some i =>
      if (i : Int) > mid then (i : Int) + m.length
      else find_break_end text start_pos end_pos mid ms
    | none => find_break_end text start_pos end_pos mid ms

/-- One fuel-indexed unfolding of the `while start_pos < text_length`
loop of `chunk_text`; `none` means the fuel ran out before the loop
finished (so the Python loop runs at least that many iterations). -/
def chunk_text_loop (text : List Char) (max_chunk_size overlap : Int) :
    Nat → Int → List (List Char) → Option (List (List Char))
  | 0, _, _ => none
  | Nat.succ fuel, start_pos, chunks =>
    if start_pos < (text.length : Int) then
      let cand := start_pos + max_chunk_size
      let end_pos :=
        if cand ≥ (text.length : Int) then (text.length : Int)
        else find_break_end text start_pos cand
          (start_pos + Int.fdiv max_chunk_size 2) markers
      let chunks' := chunks ++ [pySlice text start_pos end_pos]
      let start' := end_pos - overlap
      if start' ≥ (text.length : Int) then some chunks'
      else chunk_text_loop text max_chunk_size overlap fuel start' chunks'
    else some chunks

/-- `summarizer.chunk_text(text, max_chunk_size=400000, overlap=8000)`,
with fuel bounding the number of loop iterations observed. -/
def chunk_text (fuel : Nat) (text : List Char)
    (max_chunk_size : Int := 400000) (overlap : Int := 8000) :
    Option (List (List Char)) :=
  chunk_text_loop text max_chunk_size overlap fuel 0 []

theorem find_break_end_le (text : List Char) (s e mid : Int)
    (he : e ≤ (text.length : Int)) :
    ∀ ms, find_break_end text s e mid ms ≤ (text.length : Int) := by
  intro ms
  induction ms with
  | nil => simpa [find_break_end] using he
  | cons m rest ih =>
    rw [find_break_end]
    cases hfind : pyRfind text m s e with
    | none => exact ih
    | some i =>
      by_cases hmid : (i : Int) > mid
      · have h1 := pyRfind_add_length_le hfind
        have h2 := normIdx_le text.length e
        simp only [hmid, if_true]
        omega
      · simp only [hmid, if_false]
        exact ih

/-- Core non-termination fact: as soon as the text is non-empty and the
overlap is at least 1, every chunk end is at most the text length, so the
cursor `start_pos = end_pos - overlap` always stays strictly below the
text length, the guard `if start_pos >= text_length: break` never fires,
and the `while` loop never exits (any amount of fuel is exhausted). -/
theorem chunk_text_loop_eq_none (text : List Char) (mcs ov : Int)
    (hov : 1 ≤ ov) :
    ∀ (fuel : Nat) (start : Int) (chunks : List (List Char)),
      start < (text.length : Int) →
      chunk_text_loop text mcs ov fuel start chunks = none := by
  intro fuel
  induction fuel with
  | zero => intro start chunks _; rfl
  | succ n ih =>
    intro start chunks hstart
    rw [chunk_text_loop, if_pos hstart]
    have hend :
        (if start + mcs ≥ (text.length : Int) then (text.length : Int)
         else find_break_end text start (start + mcs)
           (start + Int.fdiv mcs 2) markers) ≤ (text.length : Int) := by
      split
      · exact le_refl _
      · exact find_break_end_le text start (start + mcs)
          (start + Int.fdiv mcs 2) (by omega) markers
    simp only []
    rw [if_neg (by omega)]
    exact ih _ _ (by omega)

/-- C1: the claim asserts the `chunk_text` loop terminates for every
configuration with `overlap > 0`, the non-progress guard stopping it.
The opposite holds: for every non-empty text and every `overlap ≥ 1`,
the guard `start_pos >= text_length` can never fire (every emitted chunk
ends at or before the text length, so the advanced cursor is at most
`text_length - overlap`), and the loop never terminates — no amount of
fuel suffices. -/
theorem claim_C1_chunk_text_never_terminates (text : List Char)
    (mcs ov : Int) (hlen : 0 < text.length) (hov : 1 ≤ ov) (fuel : Nat) :
    chunk_text fuel text mcs ov = none :=
  chunk_text_loop_eq_none text mcs ov hov fuel 0 [] (by exact_mod_cast hlen)

theorem claim_C1_witness :
    0 < ("hello".data).length ∧ (1 : Int) ≤ 8000 ∧
      chunk_text 5 "hello".data 400000 8000 = none :=
  ⟨by decide, by decide,
    claim_C1_chunk_text_never_terminates "hello".data 400000 8000
      (by decide) (by decide) 5⟩

/-- C2: the claim asserts that a non-empty text shorter than
`max_chunk_size` yields exactly one chunk equal to the whole text. On the
code, `chunk_text("ab")` (length 2, default `max_chunk_size = 400000`,
`overlap = 8000`) emits the whole text as its first chunk but then loops
forever re-emitting it (the cursor sticks at `2 - 8000`), never
returning: the call does not return one chunk — it does not return at
all. -/
theorem claim_C2_short_text_no_single_chunk (fuel : Nat) :
    chunk_text fuel "ab".data 400000 8000 = none :=
  chunk_text_loop_eq_none "ab".data 400000 8000 (by decide)
    fuel 0 [] (by decide)

/-- C3: the claim asserts `chunk_text` yields a finite chunk sequence
whose concatenation (minus overlaps) reconstructs the text for every
text and configuration. On the code, with `max_chunk_size = 2` and
`overlap = 1` on the 4-character text `"abcd"`, the loop never
terminates (the cursor sticks at 3), so no finite sequence is ever
produced. -/
theorem claim_C3_no_finite_chunk_sequence (fuel : Nat) :
    chunk_text fuel "abcd".data 2 1 = none :=
  chunk_text_loop_eq_none "abcd".data 2 1 (by decide)
    fuel 0 [] (by decide)

/-! ## Claim C6: boundary-marker priority -/

/-- The boundary rule exactly as claim C6 words it: the first marker type
with any match in the window wins outright; its rightmost match is used
if past the midpoint, and otherwise the chunk is cut at the raw
candidate end (no later marker type is consulted). -/
def claimed_break_end (text : List Char) (start_pos end_pos mid : Int) :
    List (List Char) → Int
  | [] => end_pos
  | m :: ms =>
    match pyRfind text m start_pos end_pos with
    | some i =>
      if (i : Int) > mid then (i : Int) + m.length else end_pos
    | none => claimed_break_end text start_pos end_pos mid ms

/-- The amended boundary rule: the first marker type whose rightmost
match in the window lies strictly past the midpoint wins; a marker type
whose rightmost match is at or before the midpoint is passed over and
the later marker types are still tried; only when no marker type
qualifies is the chunk cut at the raw candidate end. -/
def amended_break_end (text : List Char) (start_pos end_pos mid : Int)
    (ms : List (List Char)) : Int :=
  match ms.findSome? (fun m =>
    match pyRfind text m start_pos end_pos with
    | some i => if (i : Int) > mid then some ((i : Int) + m.length) else none
    | none => none) with
  | some e => e
  | none => end_pos

/-- C6 counterexample: in the text `"\n\nabcdf. xyzw"` (length 13) with
`start_pos = 0` and `max_chunk_size = 10` (candidate end 10, midpoint 5),
the first marker type `"\n\n"` has a match (at 0, not past the midpoint)
and the claim therefore predicts a hard cut at the candidate end 10; the
code instead goes on to try `". "`, finds it at 7, and cuts at 9. -/
theorem claim_C6_counterexample :
    (0 : Int) + 10 < (("\n\nabcdf. xyzw".data).length : Int) ∧
    find_break_end "\n\nabcdf. xyzw".data 0 (0 + 10)
      (0 + Int.fdiv 10 2) markers = 9 ∧
    claimed_break_end "\n\nabcdf. xyzw".data 0 (0 + 10)
      (0 + Int.fdiv 10 2) markers = 10 := by
  refine ⟨by decide, by decide, by decide⟩

/-- C6 (amended): marker types are tried in the priority order `"\n\n"`,
`".\n"`, `". "`, `"! "`, `"? "`, and the first marker type whose
rightmost match in the window lies strictly after the midpoint wins, the
chunk ending just after that match; a marker type that matches only at
or before the midpoint is skipped in favour of later marker types; if no
marker type qualifies, the chunk is cut at the raw candidate end. -/
theorem claim_C6_marker_priority (text : List Char)
    (start_pos end_pos mid : Int) (ms : List (List Char)) :
    find_break_end text start_pos end_pos mid ms =
      amended_break_end text start_pos end_pos mid ms := by
  induction ms with
  | nil => rfl
  | cons m rest ih =>
    rw [find_break_end, amended_break_end, List.findSome?]
    cases hfind : pyRfind text m start_pos end_pos with
    | none =>
      simpa [amended_break_end] using ih
    | some i =>
      by_cases hmid : (i : Int) > mid
      · simp [hmid]
      · simpa [hmid, amended_break_end] using ih

/-! ## The Completion Client (`summarizer.summarize_text`) -/

/-- The `"default"` entry of `mode_instructions`. -/
def default_instruction : String :=
  "You are a helpful assistant that specializes in summarizing text. Your summaries cover all of the key points with examples. You provide the perspective of the author.

Please provide a summary of the text. Focus on the main points, key insights, and important details. The summary should be well-structured and capture the essence of the content. Provide the response from the perspective of the author and don't say the text says or the author says, state it from author's point of view."

/-- The `"debate"` entry of `mode_instructions` (plain-text variant). -/
def debate_instruction : String :=
  "You are an expert debate coach and critical thinker who specializes in analyzing arguments and identifying logical fallacies. You provide sharp, direct, and professional critical analysis.

Analyze the article or text and provide a critical analysis with counter-arguments following these steps:

1. Identify and summarize the main narrative, argument, or thesis being promoted (1–2 sentences maximum).

2. Detect any logical fallacies, weak reasoning, emotional manipulation, or unsupported assumptions.
   - List each issue clearly.
   - Name the type of fallacy or tactic used.
   - Quote the part of the text where it happens (if possible).
   - Explain why it is logically weak.

3. Generate 2–3 strong, logically sound counter-arguments that challenge the author's position.
   - Use evidence, alternative perspectives, or common counterpoints.
   - Be rigorous and persuasive.
   - Assume the audience values clear thinking over emotional appeals.

Important:
- Be sharp, direct, and critical, but professional.
- Prioritize logical flaws over mere disagreement.
- Do not make up facts; base counters on reasoning or widely accepted information.
- DO NOT describe what you would do - actually perform the analysis."

/-- The `"debate_html"` entry of `mode_instructions` (HTML-skeleton variant). -/
def debate_html_instruction : String :=
  debate_instruction ++ "

Format your analysis in HTML without a preamble. Don't include the <html>, <head> or <style> tags. Start with a <div> and use the following structure:

<div>
  <h2>Narrative</h2>
  <p>[1-2 sentence summary of the main argument]</p>

  <h2>Logical Issues</h2>
  <ul>
    <li><strong>[fallacy type]</strong>: \"[quote]\" - [explanation]</li>
    <li><strong>[fallacy type]</strong>: \"[quote]\" - [explanation]</li>
  </ul>

  <h2>Counter-Arguments</h2>
  <ul>
    <li>[counter-argument 1]</li>
    <li>[counter-argument 2]</li>
    <li>[counter-argument 3]</li>
  </ul>
</div>"

/-- The `mode_instructions` dict of `summarize_text`, as an association
list keyed by mode name. -/
def mode_instructions : List (String × String) :=
  [("default", default_instruction),
   ("debate", debate_instruction),
   ("debate_html", debate_html_instruction)]

/-- The suffix appended to the system prompt when `html_output` is
requested in `default` mode. -/
def html_instruction_suffix : String :=
  " Output in html without a preamble. Don't include the <html>, <head> or <style> tags. Start with a <div>."

/-- The system-prompt selection at the top of `summarize_text`:
`mode_instructions["debate_html"]` when `mode == "debate" and
html_output`, else the dict lookup `mode_instructions[mode]` (`none`
models an uncaught `KeyError`), then the HTML suffix appended for
`default` mode with `html_output`. -/
def system_prompt_for (mode : String) (html_output : Bool) : Option String :=
  let base :=
    if mode = "debate" ∧ html_output then mode_instructions.lookup "debate_html"
    else mode_instructions.lookup mode
  base.map (fun p =>
    if html_output ∧ mode = "default" then p ++ html_instruction_suffix else p)

/-- Outcome of one streaming completion attempt, as the `except` clauses
of `summarize_text` classify it: a fully assembled response string, a
rate-limit error, a timeout, or any other exception. -/
inductive ApiOutcome where
  | success (response : String)
  | rateLimitError
  | timeoutError
  | otherError (msg : String)

/-- Python `str.strip()`: leading and trailing whitespace removed. -/
def py_strip (s : String) : String :=
  String.mk
    (((s.data.dropWhile Char.isWhitespace).reverse.dropWhile
      Char.isWhitespace).reverse)

/-- The `for attempt in range(max_retries)` loop of `summarize_text`,
run against a backend giving the outcome of each attempt. Returns the
result (the stripped response, or `none` after exhaustion), the list of
`time.sleep` durations performed (60 after a rate limit, 5 after a
timeout or any other error), and the number of attempts made. -/
def api_attempts (backend : Nat → ApiOutcome) :
    List Nat → Option String × List Nat × Nat
  | [] => (none, [], 0)
  | i :: rest =>
    match backend i with
    | .success s => (some (py_strip s), [], 1)
    | .rateLimitError =>
      let r := api_attempts backend rest
      (r.1, 60 :: r.2.1, r.2.2 + 1)
    | .timeoutError =>
      let r := api_attempts backend rest
      (r.1, 5 :: r.2.1, r.2.2 + 1)
    | .otherError _ =>
      let r := api_attempts backend rest
      (r.1, 5 :: r.2.1, r.2.2 + 1)

/-- `summarizer.summarize_text`: selects the system prompt (an uncaught
`KeyError`, modelled as `Except.error`, escapes before any attempt when
the mode is not a key of `mode_instructions`), then runs the retry loop
over `range(max_retries)`. -/
def summarize_text (backend : Nat → ApiOutcome) (text : List Char)
    (max_retries : Nat) (html_output : Bool) (mode : String) :
    Except String (Option String × List Nat × Nat) :=
  match system_prompt_for mode html_output with
  | none => Except.error ("KeyError: " ++ mode)
  | some _ => Except.ok (api_attempts backend (List.range max_retries))

/-- The wait performed after a failed attempt `i`: 60 seconds after a
rate-limit error, 5 seconds otherwise. -/
def retry_wait (backend : Nat → ApiOutcome) (i : Nat) : Nat :=
  match backend i with
  | .rateLimitError => 60
  | _ => 5

theorem api_attempts_all_fail (backend : Nat → ApiOutcome) (l : List Nat)
    (h : ∀ i ∈ l, ∀ s, backend i ≠ ApiOutcome.success s) :
    api_attempts backend l = (none, l.map (retry_wait backend), l.length) := by
  induction l with
  | nil => rfl
  | cons i rest ih =>
    have hrest : ∀ j ∈ rest, ∀ s, backend j ≠ ApiOutcome.success s :=
      fun j hj => h j (List.mem_cons_of_mem i hj)
    cases hb : backend i with
    | success s => exact absurd hb (h i (List.mem_cons_self i rest) s)
    | rateLimitError =>
      simp [api_attempts, hb, ih hrest, retry_wait]
    | timeoutError =>
      simp [api_attempts, hb, ih hrest, retry_wait]
    | otherError m =>
      simp [api_attempts, hb, ih hrest, retry_wait]

/-- C8: with a valid mode and a backend that fails on every attempt,
`summarize_text` makes exactly `max_retries` attempts, sleeps 60 seconds
after each rate-limit error and 5 seconds after each timeout or other
error, and then returns the definitive failure value `None` — every
exception raised during a request or stream is caught, so nothing
propagates to the caller. -/
theorem claim_C8_retry_exhaustion (backend : Nat → ApiOutcome)
    (text : List Char) (html_output : Bool) (mode : String)
    (max_retries : Nat) (hmr : 1 ≤ max_retries)
    (hmode : mode = "default" ∨ mode = "debate")
    (hfail : ∀ i, ∀ s, backend i ≠ ApiOutcome.success s) :
    summarize_text backend text max_retries html_output mode =
      Except.ok (none, (List.range max_retries).map (retry_wait backend),
        max_retries) := by
  have hattempts := api_attempts_all_fail backend (List.range max_retries)
    (fun i _ s => hfail i s)
  have hprompt : ∃ p, system_prompt_for mode html_output = some p := by
    rcases hmode with h | h <;> subst h <;> cases html_output <;>
      simp [system_prompt_for, mode_instructions, List.lookup]
  rcases hprompt with ⟨p, hp⟩
  simp [summarize_text, hp, hattempts, List.length_range]

def backend_always_failing : Nat → ApiOutcome :=
  fun _ => ApiOutcome.otherError "boom"

theorem claim_C8_witness :
    summarize_text backend_always_failing "t".data 3 true "default" =
      Except.ok (none, [5, 5, 5], 3) := by
  have h := claim_C8_retry_exhaustion backend_always_failing "t".data true
    "default" 3 (by decide) (Or.inl rfl)
    (fun i s => by simp [backend_always_failing])
  simpa [backend_always_failing, retry_wait, List.range] using h

def backend_always_ok : Nat → ApiOutcome :=
  fun _ => ApiOutcome.success "ok"

/-- C10 counterexample: the claim says every mode other than `"default"`
and `"debate"` (outside the `debate`-with-HTML pair) hits an uncaught
`KeyError` at the system-prompt lookup. But `mode_instructions` also has
the key `"debate_html"`, so calling with `mode = "debate_html"` and
`html_output = False` finds a prompt and proceeds to the completion
attempt, returning normally. -/
theorem claim_C10_counterexample :
    summarize_text backend_always_ok "t".data 1 false "debate_html" =
      Except.ok (some "ok", [], 1) := by
  rfl

/-- C10 (amended): `summarize_text` resolves a system prompt exactly for
the modes `"default"`, `"debate"` and the internal `"debate_html"`; for
every other mode argument the dict lookup raises an uncaught `KeyError`
before any completion attempt is made (the result is an error carrying
no attempts, so the retry loop's no-exception guarantee does not apply). -/
theorem claim_C10_invalid_mode_keyerror (backend : Nat → ApiOutcome)
    (text : List Char) (max_retries : Nat) (html_output : Bool)
    (mode : String) (h1 : mode ≠ "default") (h2 : mode ≠ "debate")
    (h3 : mode ≠ "debate_html") :
    summarize_text backend text max_retries html_output mode =
      Except.error ("KeyError: " ++ mode) := by
  have e1 : (mode == "default") = false := by
    simp [beq_eq_false_iff_ne, h1]
  have e2 : (mode == "debate") = false := by
    simp [beq_eq_false_iff_ne, h2]
  have e3 : (mode == "debate_html") = false := by
    simp [beq_eq_false_iff_ne, h3]
  have hlookup : mode_instructions.lookup mode = none := by
    simp [mode_instructions, List.lookup, e1, e2, e3]
  have hprompt : system_prompt_for mode html_output = none := by
    simp [system_prompt_for, h2, hlookup]
  simp [summarize_text, hprompt]

theorem claim_C10_witness :
    summarize_text backend_always_ok "t".data 3 true "custom" =
      Except.error ("KeyError: " ++ "custom") :=
  claim_C10_invalid_mode_keyerror backend_always_ok "t".data 3 true
    "custom" (by decide) (by decide) (by decide)

/-! ## The Chunk Orchestrator (`webpage_processor.py`)

At this layer a call to `summarize_text` is modelled by its observable
result: an oracle `SumReq → Option String` mapping the request (text,
`html_output`, temperature, mode) to the returned summary or `None`. -/

/-- The arguments of one `summarize_text` call as issued by the
orchestrator: the text, the `html_output` flag, the sampling temperature
and the mode string. -/
structure SumReq where
  text : List Char
  html_output : Bool
  temperature : ℚ
  mode : String
deriving DecidableEq

/-- Observable side effects of the orchestrator: a completion call, a
`chunk_text` invocation with its configuration, and an archived HTML
artifact (`save_html_to_s3`). -/
inductive OrchEffect where
  | sumCall (req : SumReq)
  | chunkCall (max_chunk_size overlap : Int)
  | saveHtml (content : String)

/-- The orchestrator's result record: the `success` flag, the `status`
field and the final output (the summary that flows into the status
record or the archived artifact). -/
structure OrchResult where
  success : Bool
  status : String
  output : Option String
deriving DecidableEq

/-- The single `summarize_text` request issued by
`process_single_chunk`: `html_output=True`, temperature 0 and mode
`"debate"` in debate mode, the defaults (temperature 0.5, mode
`"default"`) otherwise. -/
def single_chunk_req (text_content : List Char) (mode : String) : SumReq :=
  if mode = "debate" then ⟨text_content, true, 0, "debate"⟩
  else ⟨text_content, true, 1/2, "default"⟩

/-- `webpage_processor.process_single_chunk`. -/
def process_single_chunk (sumO : SumReq → Option String)
    (text_content : List Char) (mode : String) :
    Option String × List OrchEffect :=
  (sumO (single_chunk_req text_content mode),
   [OrchEffect.sumCall (single_chunk_req text_content mode)])

/-- The per-chunk `summarize_text` request of the chunk loop:
`html_output=False`, temperature 0 and mode `"debate"` in debate mode,
the defaults otherwise. -/
def chunk_req (mode : String) (c : List Char) : SumReq :=
  if mode = "debate" then ⟨c, false, 0, "debate"⟩
  else ⟨c, false, 1/2, "default"⟩

/-- The heading attached to one successful per-segment HTML analysis. -/
def segment_heading (i : Nat) (html : String) : String :=
  "<h2>Segment " ++ toString i ++ " Analysis</h2>\n" ++ html

/-- `webpage_processor.process_debate_mode_chunks`: each chunk is
re-summarized with `html_output=True`, temperature 0, mode `"debate"`;
truthy (non-empty) results are collected under `<h2>Segment i
Analysis</h2>` headings and wrapped in one `<div>`; if nothing was
collected, a placeholder failure message is emitted. -/
def process_debate_mode_chunks (sumO : SumReq → Option String)
    (chunks : List (List Char)) : String :=
  let html_summaries := (List.enumFrom 1 chunks).filterMap (fun p =>
    match sumO ⟨p.2, true, 0, "debate"⟩ with
    | some h => if h.isEmpty then none else some (segment_heading p.1 h)
    | none => none)
  if html_summaries.isEmpty then
    "<div><p>Failed to generate any analyses.</p></div>"
  else
    "<div>\n" ++ String.intercalate "\n\n" html_summaries ++ "\n</div>"

/-- Python `s.replace("\n", "<br>")`. -/
def nl_to_br (s : String) : String := s.replace "\n" "<br>"

/-- The meta-summary prompt wrapping the combined per-chunk summaries in
`process_default_mode_chunks` (the under-threshold branch). -/
def meta_prompt_for (combined_summaries : String) : String :=
  "Below are summaries of different segments of a longer text. \nPlease create one unified, coherent summary that incorporates the key points from all segments:\n\n"
    ++ combined_summaries

/-- `webpage_processor.process_default_mode_chunks`: a direct
meta-summary of the combined summaries when they still exceed 400000
characters, a unified-summary prompt otherwise; on meta failure the raw
combined summaries (line breaks as `<br>`) are the fallback. -/
def process_default_mode_chunks (sumO : SumReq → Option String)
    (combined_summaries : String) : String × List OrchEffect :=
  if combined_summaries.length > 400000 then
    let req : SumReq := ⟨combined_summaries.data, true, 1/2, "default"⟩
    match sumO req with
    | none =>
      ("<div>" ++ nl_to_br combined_summaries ++ "</div>",
       [OrchEffect.sumCall req])
    | some meta =>
      ("<div><h1>Executive Summary</h1>" ++ meta ++
        "<h1>Detailed Summaries</h1>" ++ nl_to_br combined_summaries ++
        "</div>", [OrchEffect.sumCall req])
  else
    let req : SumReq := ⟨(meta_prompt_for combined_summaries).data, true,
      1/2, "default"⟩
    match sumO req with
    | none =>
      ("<div>" ++ nl_to_br combined_summaries ++ "</div>",
       [OrchEffect.sumCall req])
    | some meta =>
      ("<div><h1>Executive Summary</h1>" ++ meta ++
        "<h1>Detailed Summaries</h1>" ++ nl_to_br combined_summaries ++
        "</div>", [OrchEffect.sumCall req])

/-- `webpage_processor.process_multiple_chunks`: split via `chunk_text`
with the default configuration (max 400000, overlap 8000), summarize
each chunk without HTML output skipping failures, then recombine per
mode. A `none` result means the `chunk_text` call never returned. -/
def process_multiple_chunks (sumO : SumReq → Option String) (fuel : Nat)
    (text_content : List Char) (mode : String) :
    Option OrchResult × List OrchEffect :=
  match chunk_text fuel text_content 400000 8000 with
  | none => (none, [OrchEffect.chunkCall 400000 8000])
  | some chunks =>
    let all_summaries := (List.enumFrom 1 chunks).filterMap (fun p =>
      (sumO (chunk_req mode p.2)).map (fun s =>
        "--- Segment " ++ toString p.1 ++ " ---\n\n" ++ s))
    let chunk_effects := (List.enumFrom 1 chunks).map (fun p =>
      OrchEffect.sumCall (chunk_req mode p.2))
    if chunks.length > 1 then
      if mode = "debate" then
        let debate_effects := chunks.map (fun c =>
          OrchEffect.sumCall ⟨c, true, 0, "debate"⟩)
        (some ⟨true, "completed",
          some (process_debate_mode_chunks sumO chunks)⟩,
         OrchEffect.chunkCall 400000 8000 :: (chunk_effects ++ debate_effects))
      else
        let combined_summaries := String.intercalate "\n\n" all_summaries
        let m := process_default_mode_chunks sumO combined_summaries
        (some ⟨true, "completed", some m.1⟩,
         OrchEffect.chunkCall 400000 8000 :: (chunk_effects ++ m.2))
    else
      (some ⟨true, "completed",
        some (all_summaries.headD "Failed to generate any summaries.")⟩,
       OrchEffect.chunkCall 400000 8000 :: chunk_effects)

/-- `webpage_processor.process_summary_job`: texts of at most 400000
characters go through `process_single_chunk` (one completion call,
`html_output=True`); a truthy summary is archived (`save_html_to_s3`)
and the job completes, otherwise it fails; longer texts go through
`process_multiple_chunks`. -/
def process_summary_job (sumO : SumReq → Option String) (fuel : Nat)
    (text_content : List Char) (mode : String) :
    Option OrchResult × List OrchEffect :=
  if text_content.length ≤ 400000 then
    let r := process_single_chunk sumO text_content mode
    match r.1 with
    | some summary =>
      if summary.isEmpty then
        (some ⟨false, "failed", none⟩, r.2)
      else
        (some ⟨true, "completed", some summary⟩,
         r.2 ++ [OrchEffect.saveHtml summary])
    | none => (some ⟨false, "failed", none⟩, r.2)
  else
    let m := process_multiple_chunks sumO fuel text_content mode
    match m.1 with
    | some r =>
      match r.output with
      | some s => (m.1, m.2 ++ [OrchEffect.saveHtml s])
      | none => m
    | none => m

/-- Whether an orchestrator effect is a completion call. -/
def is_sum_call : OrchEffect → Bool
  | .sumCall _ => true
  | _ => false

def const_summary_oracle : SumReq → Option String := fun _ => some "S"

/-- C7 counterexample: the claim says every text at or above the
400000-character threshold is split via the Text Chunker. On a text of
length exactly 400000 the code takes the single-shot branch
(`text_length <= 400000`): the effect trace is one completion call
followed by the archival of its result — no `chunk_text` invocation. -/
theorem claim_C7_counterexample :
    (List.replicate 400000 'a').length = 400000 ∧
    (process_summary_job const_summary_oracle 0
        (List.replicate 400000 'a') "default").2 =
      [OrchEffect.sumCall
        ⟨List.replicate 400000 'a', true, 1/2, "default"⟩,
       OrchEffect.saveHtml "S"] := by
  constructor
  · exact List.length_replicate 400000 'a'
  · rw [process_summary_job,
      if_pos (le_of_eq (List.length_replicate 400000 'a'))]
    rw [process_single_chunk]
    rw [single_chunk_req, if_neg (by decide)]
    rfl

/-- C7 (amended): the orchestrator decides by the single 400000-character
threshold with the boundary in the single-shot branch: for every text of
length at most 400000 it makes exactly one Completion Client call, with
`html_output=true` and temperature 0 in debate mode (0.5 otherwise), and
a truthy result of that call becomes the final output of a completed
job; for every text strictly longer than 400000 it invokes the Text
Chunker with max chunk size 400000 and overlap 8000 before anything
else. -/
theorem claim_C7_threshold (sumO : SumReq → Option String) (fuel : Nat)
    (text_content : List Char) (mode : String) :
    (text_content.length ≤ 400000 →
      ((process_summary_job sumO fuel text_content mode).2.filter
          is_sum_call =
        [OrchEffect.sumCall (single_chunk_req text_content mode)]) ∧
      (single_chunk_req text_content mode).html_output = true ∧
      (single_chunk_req text_content mode).temperature =
        (if mode = "debate" then 0 else 1/2) ∧
      (∀ s, sumO (single_chunk_req text_content mode) = some s →
        s.isEmpty = false →
        (process_summary_job sumO fuel text_content mode).1 =
          some ⟨true, "completed", some s⟩)) ∧
    (400000 < text_content.length →
      (process_summary_job sumO fuel text_content mode).2.head? =
        some (OrchEffect.chunkCall 400000 8000)) := by
  constructor
  · intro hlen
    refine ⟨?_, ?_, ?_, ?_⟩
    · rw [process_summary_job, if_pos hlen]
      cases hs : sumO (single_chunk_req text_content mode) with
      | none => simp [process_single_chunk, hs, is_sum_call]
      | some summary =>
        by_cases he : summary.isEmpty
        · simp [process_single_chunk, hs, he, is_sum_call]
        · simp [process_single_chunk, hs, he, is_sum_call]
    · unfold single_chunk_req; split <;> rfl
    · unfold single_chunk_req; split <;> simp_all
    · intro s hs he
      rw [process_summary_job, if_pos hlen]
      simp [process_single_chunk, hs, he]
  · intro hlen
    rw [process_summary_job, if_neg (by omega)]
    have hchunk : chunk_text fuel text_content 400000 8000 = none :=
      chunk_text_loop_eq_none text_content 400000 8000 (by norm_num)
        fuel 0 [] (by exact_mod_cast (by omega : 0 < text_content.length))
    simp only [process_multiple_chunks, hchunk]
    rfl

theorem claim_C7_witness :
    (process_summary_job const_summary_oracle 0 "hi".data "debate").1 =
      some ⟨true, "completed", some "S"⟩ ∧
    (process_summary_job const_summary_oracle 0
        (List.replicate 400001 'a') "default").2.head? =
      some (OrchEffect.chunkCall 400000 8000) :=
  ⟨((claim_C7_threshold const_summary_oracle 0 "hi".data "debate").1
      (by decide)).2.2.2 "S" rfl rfl,
   (claim_C7_threshold const_summary_oracle 0
      (List.replicate 400001 'a') "default").2
    (by rw [List.length_replicate]; omega)⟩

theorem debate_filterMap_all_some (sumO : SumReq → Option String)
    (hs : ∀ c ∈ chunks, ∃ h, sumO ⟨c, true, 0, "debate"⟩ = some h ∧
      h.isEmpty = false) :
    ∀ i : Nat,
      ((List.enumFrom i chunks).filterMap (fun p =>
        match sumO ⟨p.2, true, 0, "debate"⟩ with
        | some h => if h.isEmpty then none else some (segment_heading p.1 h)
        | none => none)) =
      (List.enumFrom i chunks).map (fun p =>
        segment_heading p.1 ((sumO ⟨p.2, true, 0, "debate"⟩).getD "")) := by
  induction chunks with
  | nil => intro i; rfl
  | cons c rest ih =>
    intro i
    obtain ⟨h, hc, hne⟩ := hs c (List.mem_cons_self c rest)
    have hrest : ∀ x ∈ rest, ∃ h, sumO ⟨x, true, 0, "debate"⟩ = some h ∧
        h.isEmpty = false :=
      fun x hx => hs x (List.mem_cons_of_mem c hx)
    simp [List.enumFrom, List.filterMap, hc, hne, ih hrest (i + 1)]

/-- C9: in debate mode with at least two chunks, if every chunk-level
HTML completion call returns a (truthy) analysis, the final output is a
single `<div>` wrapping exactly one `<h2>Segment i Analysis</h2>` block
per chunk, in input order; if every chunk-level HTML call fails, the
output is the placeholder
`<div><p>Failed to generate any analyses.</p></div>`. -/
theorem claim_C9_debate_recombination (sumO : SumReq → Option String)
    (chunks : List (List Char)) (hn : 2 ≤ chunks.length) :
    ((∀ c ∈ chunks, ∃ h, sumO ⟨c, true, 0, "debate"⟩ = some h ∧
        h.isEmpty = false) →
      process_debate_mode_chunks sumO chunks =
        "<div>\n" ++ String.intercalate "\n\n"
          ((List.enumFrom 1 chunks).map (fun p =>
            segment_heading p.1
              ((sumO ⟨p.2, true, 0, "debate"⟩).getD ""))) ++ "\n</div>") ∧
    ((∀ c ∈ chunks, sumO ⟨c, true, 0, "debate"⟩ = none) →
      process_debate_mode_chunks sumO chunks =
        "<div><p>Failed to generate any analyses.</p></div>") := by
  constructor
  · intro hs
    rw [process_debate_mode_chunks]
    rw [debate_filterMap_all_some sumO hs 1]
    cases chunks with
    | nil => simp at hn
    | cons c rest => simp [List.enumFrom]
  · intro hnone
    rw [process_debate_mode_chunks]
    have hempty :
        ((List.enumFrom 1 chunks).filterMap (fun p =>
          match sumO ⟨p.2, true, 0, "debate"⟩ with
          | some h =>
            if h.isEmpty then none else some (segment_heading p.1 h)
          | none => none)) = [] := by
      rw [List.filterMap_eq_nil_iff]
      intro p hp
      have : p.2 ∈ chunks := List.snd_mem_of_mem_enumFrom hp
      rw [hnone p.2 this]
    simp [hempty]

def debate_oracle_3 : SumReq → Option String :=
  fun r => some ("H" ++ String.mk r.text)

theorem claim_C9_witness :
    process_debate_mode_chunks debate_oracle_3
      ["a".data, "b".data, "c".data] =
      "<div>\n" ++ String.intercalate "\n\n"
        ((List.enumFrom 1 ["a".data, "b".data, "c".data]).map (fun p =>
          segment_heading p.1
            ((debate_oracle_3 ⟨p.2, true, 0, "debate"⟩).getD ""))) ++
        "\n</div>" :=
  (claim_C9_debate_recombination debate_oracle_3
    ["a".data, "b".data, "c".data] (by decide)).1
    (by intro c hc; exact ⟨"H" ++ String.mk c, rfl, by
      fin_cases hc <;> decide⟩)

/-! ## The Job Driver (`lambda.py`)

The S3 status store is modelled as an association list keyed by the
status-file key; the content-extraction collaborator and the Completion
Client are oracles. Each operation returns, besides its value, the
updated store state and the list of observable effects it performed. -/

/-- The JSON status record, with one optional field per dict key the
driver reads or writes. -/
structure StatusRecord where
  status : Option String := none
  success : Option Bool := none
  message : Option String := none
  page_id : Option String := none
  page_url : Option String := none
  summary : Option String := none
  summary_error : Option String := none
  cached : Option Bool := none
  last_updated : Option Nat := none
deriving DecidableEq

/-- The status-file key: mode `"debate"` partitions records under
`analysis/`, every other mode under `summaries/`. -/
def status_key (page_id mode : String) : String :=
  if mode = "debate" then "analysis/" ++ page_id ++ ".json"
  else "summaries/" ++ page_id ++ ".json"

/-- The S3 bucket contents, as an association list with shadowing (the
most recent write for a key comes first). -/
abbrev Store := List (String × StatusRecord)

def store_get (store : Store) (k : String) : Option StatusRecord :=
  store.lookup k

/-- Driver state: the status store and a logical clock stamping
`last_updated`. -/
structure LambdaSt where
  store : Store
  clock : Nat

/-- Observable effects of one driver run. -/
inductive LEffect where
  | extractCall (url : String)
  | sumCall (req : SumReq)
  | chunkCall (max_chunk_size overlap : Int)
  | putStatus (key : String) (record : StatusRecord)
  | saveHtml (content : String)

/-- `lambda.check_status_file`. -/
def check_status_file (st : LambdaSt) (page_id mode : String) :
    Option StatusRecord :=
  store_get st.store (status_key page_id mode)

/-- `lambda.update_status_file`: stamps `last_updated` and overwrites the
record under the mode-dependent key. -/
def update_status_file (page_id : String) (r : StatusRecord)
    (mode : String) (st : LambdaSt) : LambdaSt × List LEffect :=
  let stamped := { r with last_updated := some st.clock }
  (⟨(status_key page_id mode, stamped) :: st.store, st.clock + 1⟩,
   [LEffect.putStatus (status_key page_id mode) stamped])

/-- Result of the content-extraction collaborator
(`extract_webpage_content`). -/
inductive ExtractResult where
  | ok (content : List Char) (title : String)
  | err (message : String)

/-- The two external collaborators of the driver. -/
structure Oracles where
  extractO : String → ExtractResult
  sumO : SumReq → Option String

/-- Python truthiness of `status.get('summary')`. -/
def truthy_str_opt : Option String → Bool
  | some s => !s.isEmpty
  | none => false

/-- The `for i, chunk in enumerate(chunks, 1)` loop of `process_webpage`:
writes `summarizing_chunk_i_of_n`, summarizes each chunk without HTML
output, and collects the successful `--- Segment i ---` entries. -/
def lambda_chunk_fold (o : Oracles) (page_id mode : String)
    (result : StatusRecord) (n : Nat) :
    List (Nat × List Char) → LambdaSt →
    LambdaSt × List LEffect × List String
  | [], st => (st, [], [])
  | p :: rest, st =>
    let result_i := { result with
      status := some ("summarizing_chunk_" ++ toString p.1 ++ "_of_" ++
        toString n) }
    let u := update_status_file page_id result_i mode st
    let effs := u.2 ++ [LEffect.sumCall (chunk_req mode p.2)]
    let tail := lambda_chunk_fold o page_id mode result n rest u.1
    match o.sumO (chunk_req mode p.2) with
    | none => (tail.1, effs ++ tail.2.1, tail.2.2)
    | some s =>
      (tail.1, effs ++ tail.2.1,
       ("--- Segment " ++ toString p.1 ++ " ---\n\n" ++ s) :: tail.2.2)

/-- Conversion of an orchestrator effect into a driver effect (the
driver inlines the same recombination logic). -/
def orch_effect_to_lambda : OrchEffect → LEffect
  | .sumCall req => LEffect.sumCall req
  | .chunkCall a b => LEffect.chunkCall a b
  | .saveHtml c => LEffect.saveHtml c

/-- The multi-chunk tail of `lambda.process_webpage` (chunk loop,
`creating_meta_summary`, per-mode recombination, final `completed`
write). -/
def process_webpage_chunks (o : Oracles) (page_id page_url mode : String)
    (result : StatusRecord) (chunks : List (List Char)) (st : LambdaSt) :
    Option StatusRecord × LambdaSt × List LEffect :=
  let fd := lambda_chunk_fold o page_id mode result chunks.length
    (List.enumFrom 1 chunks) st
  let all_summaries := fd.2.2
  if chunks.length > 1 then
    let r1 := { result with status := some "creating_meta_summary" }
    let u1 := update_status_file page_id r1 mode fd.1
    if mode = "debate" then
      let debate_effects := chunks.map (fun c =>
        LEffect.sumCall ⟨c, true, 0, "debate"⟩)
      let r2 := { r1 with
        summary := some (process_debate_mode_chunks o.sumO chunks),
        status := some "completed" }
      let u2 := update_status_file page_id r2 mode u1.1
      (some r2, u2.1, fd.2.1 ++ u1.2 ++ debate_effects ++ u2.2)
    else
      let combined_summaries := String.intercalate "\n\n" all_summaries
      let m := process_default_mode_chunks o.sumO combined_summaries
      let r2 := { r1 with summary := some m.1, status := some "completed" }
      let u2 := update_status_file page_id r2 mode u1.1
      (some r2, u2.1,
       fd.2.1 ++ u1.2 ++ m.2.map orch_effect_to_lambda ++ u2.2)
  else
    let r2 := { result with
      summary := some (all_summaries.headD
        "Failed to generate any summaries."),
      status := some "completed" }
    let u2 := update_status_file page_id r2 mode fd.1
    (some r2, u2.1, fd.2.1 ++ u2.2)

/-- The processing body of `lambda.process_webpage` after the cache
check: write `processing`, extract, on failure write `failed`, else
write `summarizing` and summarize (single-shot at or below 400000
characters, otherwise chunked). A `none` first component means the run
never returned (the `chunk_text` call diverged). -/
def process_webpage_body (o : Oracles) (fuel : Nat)
    (page_url mode page_id : String) (st : LambdaSt) :
    Option StatusRecord × LambdaSt × List LEffect :=
  let u0 := update_status_file page_id
    { status := some "processing", page_id := some page_id,
      page_url := some page_url,
      message := some "Started processing webpage" } mode st
  let effs0 := u0.2 ++ [LEffect.extractCall page_url]
  match o.extractO page_url with
  | .err msg =>
    let error_status : StatusRecord :=
      { status := some "failed", page_id := some page_id,
        page_url := some page_url, message := some msg }
    let u1 := update_status_file page_id error_status mode u0.1
    (some error_status, u1.1, effs0 ++ u1.2)
  | .ok text_content _title =>
    let result : StatusRecord :=
      { success := some true,
        message := some "Content extracted successfully",
        page_id := some page_id, page_url := some page_url,
        status := some "summarizing" }
    let u1 := update_status_file page_id result mode u0.1
    if text_content.length ≤ 400000 then
      let req := single_chunk_req text_content mode
      match o.sumO req with
      | some summary =>
        if summary.isEmpty then
          let r2 := { result with
            summary_error := some "Failed to generate summary",
            status := some "failed", success := some false }
          let u2 := update_status_file page_id r2 mode u1.1
          (some r2, u2.1, effs0 ++ u1.2 ++ [LEffect.sumCall req] ++ u2.2)
        else
          let r2 := { result with
            summary := some summary,
            status := some "completed", success := some true }
          let u2 := update_status_file page_id r2 mode u1.1
          (some r2, u2.1, effs0 ++ u1.2 ++ [LEffect.sumCall req] ++ u2.2)
      | none =>
        let r2 := { result with
          summary_error := some "Failed to generate summary",
          status := some "failed", success := some false }
        let u2 := update_status_file page_id r2 mode u1.1
        (some r2, u2.1, effs0 ++ u1.2 ++ [LEffect.sumCall req] ++ u2.2)
    else
      match chunk_text fuel text_content 400000 8000 with
      | none =>
        (none, u1.1, effs0 ++ u1.2 ++ [LEffect.chunkCall 400000 8000])
      | some chunks =>
        let pc := process_webpage_chunks o page_id page_url mode result
          chunks u1.1
        (pc.1, pc.2.1,
         effs0 ++ u1.2 ++ [LEffect.chunkCall 400000 8000] ++ pc.2.2)

/-- `lambda.process_webpage`: cache check first (a `completed` record
with a truthy summary is served from cache; a `processing` record is
returned as in-progress; any other existing record falls through to
re-processing), then the processing body. -/
def process_webpage (pid : String → String) (o : Oracles) (fuel : Nat)
    (page_url mode : String) (st : LambdaSt) :
    Option StatusRecord × LambdaSt × List LEffect :=
  let page_id := pid page_url
  match check_status_file st page_id mode with
  | some status =>
    if status.status = some "completed" ∧ truthy_str_opt status.summary then
      (some { success := some true,
              message := some "Summary retrieved from cache",
              page_id := some page_id, page_url := some page_url,
              summary := status.summary, cached := some true }, st, [])
    else if status.status = some "processing" then
      (some { success := some true,
              message := some "Processing in progress",
              page_id := some page_id, page_url := some page_url,
              status := some "processing", cached := some true }, st, [])
    else process_webpage_body o fuel page_url mode page_id st
  | none => process_webpage_body o fuel page_url mode page_id st

/-- The parsed request event (after body merging): the required
`page_url`, the `api_key`, and the mode defaulting to `"default"`. -/
structure LEvent where
  page_url : Option String := none
  api_key : Option String := none
  mode : String := "default"

/-- The HTTP response body: a JSON-dumped status record or an error
message. -/
inductive LBody where
  | record (r : StatusRecord)
  | errorMessage (m : String)

/-- The HTTP response of one invocation. -/
structure LResponse where
  statusCode : Nat
  body : LBody

/-- `lambda.lambda_handler`: requires `page_url`; any existing status
record for the fingerprint and mode is returned as-is before the API-key
check and before any processing; otherwise `process_webpage` runs. A
`none` response means the invocation never returned. -/
def lambda_handler (pid : String → String) (o : Oracles) (fuel : Nat)
    (ev : LEvent) (st : LambdaSt) :
    Option LResponse × LambdaSt × List LEffect :=
  match ev.page_url with
  | none =>
    (some ⟨400, LBody.errorMessage "Missing required parameter: page_url"⟩,
     st, [])
  | some page_url =>
    let page_id := pid page_url
    match check_status_file st page_id ev.mode with
    | some status => (some ⟨200, LBody.record status⟩, st, [])
    | none =>
      match ev.api_key with
      | none =>
        (some ⟨400, LBody.errorMessage
          "API key required for summarization"⟩, st, [])
      | some _ =>
        let pw := process_webpage pid o fuel page_url ev.mode st
        match pw.1 with
        | none => (none, pw.2.1, pw.2.2)
        | some r =>
          (some ⟨if r.success = some true then 200 else 500,
            LBody.record r⟩, pw.2.1, pw.2.2)

/-- A sequence of driver invocations sharing the status store. -/
def run_requests (pid : String → String) (o : Oracles) (fuel : Nat) :
    List LEvent → LambdaSt → LambdaSt
  | [], st => st
  | ev :: rest, st =>
    run_requests pid o fuel rest (lambda_handler pid o fuel ev st).2.1

/-- Rank of a lifecycle status in the forward order of the state
machine. -/
def statusRank (s : String) : Nat :=
  if s = "processing" then 0
  else if s = "summarizing" then 1
  else if List.isPrefixOf "summarizing_chunk_".data s.data then 2
  else if s = "creating_meta_summary" then 3
  else if s = "completed" then 4
  else if s = "failed" then 5
  else 6

/-- The statuses written to the store during a run, in order. -/
def status_writes (effs : List LEffect) : List String :=
  effs.filterMap (fun e =>
    match e with
    | LEffect.putStatus _ r => r.status
    | _ => none)

/-- C4: a repeat request for a fingerprint and mode whose stored status
is non-terminal (`processing`, `summarizing`, `summarizing_chunk_i_of_n`,
…) returns the stored record unchanged with HTTP 200, leaves the store
untouched, and performs no effect at all — in particular neither the
extraction collaborator nor the orchestrator is invoked a second time. -/
theorem claim_C4_idempotent_repeat (pid : String → String) (o : Oracles)
    (fuel : Nat) (ev : LEvent) (st : LambdaSt) (url : String)
    (r : StatusRecord) (hurl : ev.page_url = some url)
    (hst : check_status_file st (pid url) ev.mode = some r)
    (hnt : r.status ≠ some "completed" ∧ r.status ≠ some "failed") :
    lambda_handler pid o fuel ev st =
      (some ⟨200, LBody.record r⟩, st, []) := by
  rw [lambda_handler, hurl]
  simp only [hst]

def record_summarizing : StatusRecord := { status := some "summarizing" }

def oracles_trivial : Oracles :=
  ⟨fun _ => ExtractResult.err "no extraction", fun _ => none⟩

def st_single : LambdaSt :=
  ⟨[("summaries/u.json", record_summarizing)], 0⟩

def ev_single : LEvent := { page_url := some "u", api_key := some "k" }

theorem claim_C4_witness :
    lambda_handler (fun u => u) oracles_trivial 0 ev_single st_single =
      (some ⟨200, LBody.record record_summarizing⟩, st_single, []) :=
  claim_C4_idempotent_repeat (fun u => u) oracles_trivial 0 ev_single
    st_single "u" record_summarizing rfl (by decide) (by decide)

theorem store_get_update_ne (page_id : String) (r : StatusRecord)
    (mode : String) (st : LambdaSt) (k : String)
    (hk : k ≠ status_key page_id mode) :
    store_get (update_status_file page_id r mode st).1.store k =
      store_get st.store k := by
  have hb : (k == status_key page_id mode) = false := by
    simp [beq_eq_false_iff_ne, hk]
  simp [update_status_file, store_get, List.lookup, hb]

theorem lambda_chunk_fold_frame (o : Oracles) (page_id mode : String)
    (result : StatusRecord) (n : Nat) (k : String)
    (hk : k ≠ status_key page_id mode) :
    ∀ (l : List (Nat × List Char)) (st : LambdaSt),
      store_get
        (lambda_chunk_fold o page_id mode result n l st).1.store k =
        store_get st.store k := by
  intro l
  induction l with
  | nil => intro st; rfl
  | cons p rest ih =>
    intro st
    cases hs : o.sumO (chunk_req mode p.2) with
    | none =>
      simp only [lambda_chunk_fold, hs]
      rw [ih, store_get_update_ne _ _ _ _ _ hk]
    | some s =>
      simp only [lambda_chunk_fold, hs]
      rw [ih, store_get_update_ne _ _ _ _ _ hk]

theorem process_webpage_chunks_frame (o : Oracles)
    (page_id page_url mode : String) (result : StatusRecord)
    (chunks : List (List Char)) (st : LambdaSt) (k : String)
    (hk : k ≠ status_key page_id mode) :
    store_get
      (process_webpage_chunks o page_id page_url mode result chunks
        st).2.1.store k = store_get st.store k := by
  simp only [process_webpage_chunks]
  split
  · split
    · simp only []
      rw [store_get_update_ne _ _ _ _ _ hk,
        store_get_update_ne _ _ _ _ _ hk,
        lambda_chunk_fold_frame o page_id mode result _ k hk]
    · simp only []
      rw [store_get_update_ne _ _ _ _ _ hk,
        store_get_update_ne _ _ _ _ _ hk,
        lambda_chunk_fold_frame o page_id mode result _ k hk]
  · simp only []
    rw [store_get_update_ne _ _ _ _ _ hk,
      lambda_chunk_fold_frame o page_id mode result _ k hk]

theorem process_webpage_body_frame (o : Oracles) (fuel : Nat)
    (page_url mode page_id : String) (st : LambdaSt) (k : String)
    (hk : k ≠ status_key page_id mode) :
    store_get
      (process_webpage_body o fuel page_url mode page_id st).2.1.store k =
      store_get st.store k := by
  cases hex : o.extractO page_url with
  | err msg =>
    simp only [process_webpage_body, hex]
    rw [store_get_update_ne _ _ _ _ _ hk,
      store_get_update_ne _ _ _ _ _ hk]
  | ok tc title =>
    simp only [process_webpage_body, hex]
    split
    · cases hs : o.sumO (single_chunk_req tc mode) with
      | some summary =>
        simp only [hs]
        split
        · rw [store_get_update_ne _ _ _ _ _ hk,
            store_get_update_ne _ _ _ _ _ hk,
            store_get_update_ne _ _ _ _ _ hk]
        · rw [store_get_update_ne _ _ _ _ _ hk,
            store_get_update_ne _ _ _ _ _ hk,
            store_get_update_ne _ _ _ _ _ hk]
      | none =>
        simp only [hs]
        rw [store_get_update_ne _ _ _ _ _ hk,
          store_get_update_ne _ _ _ _ _ hk,
          store_get_update_ne _ _ _ _ _ hk]
    · cases hct : chunk_text fuel tc 400000 8000 with
      | none =>
        simp only [hct]
        rw [store_get_update_ne _ _ _ _ _ hk,
          store_get_update_ne _ _ _ _ _ hk]
      | some chunks =>
        simp only [hct]
        rw [process_webpage_chunks_frame o page_id page_url mode _ chunks
            _ k hk,
          store_get_update_ne _ _ _ _ _ hk,
          store_get_update_ne _ _ _ _ _ hk]

theorem process_webpage_frame (pid : String → String) (o : Oracles)
    (fuel : Nat) (page_url mode : String) (st : LambdaSt) (k : String)
    (hk : k ≠ status_key (pid page_url) mode) :
    store_get
      (process_webpage pid o fuel page_url mode st).2.1.store k =
      store_get st.store k := by
  simp only [process_webpage]
  cases hcs : check_status_file st (pid page_url) mode with
  | none =>
    exact process_webpage_body_frame o fuel page_url mode (pid page_url)
      st k hk
  | some status =>
    simp only []
    split
    · rfl
    · split
      · rfl
      · exact process_webpage_body_frame o fuel page_url mode
          (pid page_url) st k hk

theorem lambda_handler_preserves (pid : String → String) (o : Oracles)
    (fuel : Nat) (ev : LEvent) (st : LambdaSt) (k : String)
    (r : StatusRecord) (h : store_get st.store k = some r) :
    store_get (lambda_handler pid o fuel ev st).2.1.store k = some r := by
  cases hurl : ev.page_url with
  | none => simpa [lambda_handler, hurl] using h
  | some url =>
    cases hcs : check_status_file st (pid url) ev.mode with
    | some status => simpa [lambda_handler, hurl, hcs] using h
    | none =>
      cases hak : ev.api_key with
      | none => simpa [lambda_handler, hurl, hcs, hak] using h
      | some key =>
        have hk : k ≠ status_key (pid url) ev.mode := by
          intro he
          rw [check_status_file] at hcs
          rw [he, hcs] at h
          exact Option.noConfusion h
        have hframe := process_webpage_frame pid o fuel url ev.mode st k hk
        simp only [lambda_handler, hurl, hcs, hak]
        cases hpw : (process_webpage pid o fuel url ev.mode st).1 with
        | none => simp only [hpw]; rw [hframe]; exact h
        | some resp => simp only [hpw]; rw [hframe]; exact h

theorem run_requests_preserves (pid : String → String) (o : Oracles)
    (fuel : Nat) (k : String) (r : StatusRecord) :
    ∀ (events : List LEvent) (st : LambdaSt),
      store_get st.store k = some r →
      store_get (run_requests pid o fuel events st).store k = some r := by
  intro events
  induction events with
  | nil => intro st h; exact h
  | cons ev rest ih =>
    intro st h
    exact ih _ (lambda_handler_preserves pid o fuel ev st k r h)

theorem status_writes_append (a b : List LEffect) :
    status_writes (a ++ b) = status_writes a ++ status_writes b := by
  simp [status_writes]

/-- Abbreviation for the strict forward order on statuses. -/
def rank_lt (a b : String) : Prop := statusRank a < statusRank b

instance : DecidableRel rank_lt := fun a b => by
  unfold rank_lt
  infer_instance

theorem process_webpage_body_writes_forward (o : Oracles) (fuel : Nat)
    (page_url mode page_id : String) (st : LambdaSt) :
    List.Chain' rank_lt
      (status_writes
        (process_webpage_body o fuel page_url mode page_id st).2.2) := by
  cases hex : o.extractO page_url with
  | err msg =>
    simp only [process_webpage_body, hex]
    simp [status_writes, update_status_file]
    all_goals decide
  | ok tc title =>
    simp only [process_webpage_body, hex]
    split
    · cases hs : o.sumO (single_chunk_req tc mode) with
      | some summary =>
        simp only [hs]
        split
        · simp [status_writes, update_status_file]
          all_goals decide
        · simp [status_writes, update_status_file]
          all_goals decide
      | none =>
        simp only [hs]
        simp [status_writes, update_status_file]
        all_goals decide
    · rename_i hlen
      have hchunk : chunk_text fuel tc 400000 8000 = none :=
        chunk_text_loop_eq_none tc 400000 8000 (by norm_num) fuel 0 []
          (by exact_mod_cast (by omega : 0 < tc.length))
      simp only [hchunk]
      simp [status_writes, update_status_file]
      all_goals decide

theorem lambda_handler_writes_forward (pid : String → String)
    (o : Oracles) (fuel : Nat) (ev : LEvent) (st : LambdaSt) :
    List.Chain' rank_lt
      (status_writes (lambda_handler pid o fuel ev st).2.2) := by
  cases hurl : ev.page_url with
  | none => simp [lambda_handler, hurl, status_writes]
  | some url =>
    cases hcs : check_status_file st (pid url) ev.mode with
    | some status => simp [lambda_handler, hurl, hcs, status_writes]
    | none =>
      cases hak : ev.api_key with
      | none => simp [lambda_handler, hurl, hcs, hak, status_writes]
      | some key =>
        have hbody := process_webpage_body_writes_forward o fuel url
          ev.mode (pid url) st
        simp only [lambda_handler, hurl, hcs, hak]
        have hpweq :
            (process_webpage pid o fuel url ev.mode st).2.2 =
              (process_webpage_body o fuel url ev.mode (pid url) st).2.2 := by
          simp only [process_webpage, hcs]
        cases hpw : (process_webpage pid o fuel url ev.mode st).1 with
        | none => simp only [hpw]; rw [hpweq]; exact hbody
        | some resp => simp only [hpw]; rw [hpweq]; exact hbody

/-- C5: (1) an existing `completed` or `failed` status record is
terminal — no sequence of requests for the same fingerprint and mode
(nor for any other) ever changes it, since any request finding an
existing record returns it without writing; (2) within a single
invocation the statuses written to the store are strictly forward under
the lifecycle order, so an observer polling the store never sees a
status regress. -/
theorem claim_C5_forward_terminal_statuses :
    (∀ (pid : String → String) (o : Oracles) (fuel : Nat)
        (events : List LEvent) (st : LambdaSt) (k : String)
        (r : StatusRecord),
      store_get st.store k = some r →
      (r.status = some "completed" ∨ r.status = some "failed") →
      store_get (run_requests pid o fuel events st).store k = some r) ∧
    (∀ (pid : String → String) (o : Oracles) (fuel : Nat) (ev : LEvent)
        (st : LambdaSt),
      List.Chain' rank_lt
        (status_writes (lambda_handler pid o fuel ev st).2.2)) :=
  ⟨fun pid o fuel events st k r h _ =>
    run_requests_preserves pid o fuel k r events st h,
   lambda_handler_writes_forward⟩

def record_completed : StatusRecord :=
  { status := some "completed", summary := some "done" }

def st_completed : LambdaSt :=
  ⟨[("summaries/u.json", record_completed)], 0⟩

theorem claim_C5_witness :
    store_get
      (run_requests (fun u => u) oracles_trivial 1 [ev_single]
        st_completed).store "summaries/u.json" = some record_completed ∧
    List.Chain' rank_lt
      (status_writes
        (lambda_handler (fun u => u) oracles_trivial 1 ev_single
          st_completed).2.2) :=
  ⟨claim_C5_forward_terminal_statuses.1 (fun u => u) oracles_trivial 1
      [ev_single] st_completed "summaries/u.json" record_completed
      (by decide) (Or.inl rfl),
   claim_C5_forward_terminal_statuses.2 (fun u => u) oracles_trivial 1
      ev_single st_completed⟩

end PageSummarizer
